import Mathlib

/-!
Shallow embedding of `setup.py` from the px-ldap-group-cleanup repository.

The module opens `README.md`, reads its whole contents into
`long_description`, and then calls `setuptools.setup` with a fixed set of
keyword arguments.  Two of those arguments are not literals: the
`long_description` (the file contents just read) and `packages` (the result
of `setuptools.find_packages()`, which scans the working directory).  We
model the environment as a file reader plus the package list that
`find_packages` would discover, and the module run as a function from the
environment to either a raised error or the argument record handed to
`setuptools.setup`.
-/

namespace PxLdapGroupCleanup

/-- The keyword arguments passed to `setuptools.setup` in `setup.py`,
one field per keyword, in source order. -/
structure SetupArgs where
  name : String
  version : String
  scripts : List String
  author : String
  author_email : String
  description : String
  long_description : String
  long_description_content_type : String
  url : String
  packages : List String
  classifiers : List String
deriving DecidableEq, Repr

/-- The `setuptools.setup(...)` call of `setup.py`: every argument is the
literal from the source, except `long_description` (the contents read from
`README.md`) and `packages` (the result of `setuptools.find_packages()`),
which are the two parameters. -/
def setupCall (long_description : String) (found_packages : List String) :
    SetupArgs :=
  { name := "px-ldap-group-cleanup"
    version := "0.0.1"
    scripts := ["px-ldap-group-cleanup"]
    author := "P. H."
    author_email := "px-ldap-group-cleanup.perfide@safersignup.de"
    description := "A LDAP group cleanup script"
    long_description := long_description
    long_description_content_type := "text/markdown"
    url := "https://github.com/perfide/px-ldap-group-cleanup"
    packages := found_packages
    classifiers :=
      [ "Programming Language :: Python :: 3"
      , "License :: OSI Approved :: BSD License"
      , "Operating System :: OS Independent" ] }

/-- The execution environment of the module: `readFile f` is the contents
of file `f` when it exists (`none` models `FileNotFoundError` on `open`),
and `foundPackages` is what `setuptools.find_packages()` returns for the
working directory. -/
structure Env where
  readFile : String → Option String
  foundPackages : List String

/-- The error raised by `open('README.md', 'r')` when the file is absent. -/
def readmeMissingError : String :=
  "FileNotFoundError: No such file or directory: README.md"

/-- Running the `setup.py` module: open and read `README.md` (raising if it
does not exist), then call `setuptools.setup` once with the arguments of
`setupCall`.  The result is the argument record passed to `setup`, or the
raised error. -/
def runSetup (env : Env) : Except String SetupArgs :=
  match env.readFile "README.md" with
  | none => Except.error readmeMissingError
  | some contents => Except.ok (setupCall contents env.foundPackages)

/-- The names of the keyword arguments that `setup.py` passes to
`setuptools.setup`, in source order. -/
def setupKwargNames : List String :=
  [ "name", "version", "scripts", "author", "author_email", "description"
  , "long_description", "long_description_content_type", "url", "packages"
  , "classifiers" ]

/-- All string values occurring among the arguments of a `setup` call:
the scalar string arguments followed by the elements of the three
list-valued arguments. -/
def stringKwargValues (a : SetupArgs) : List String :=
  [ a.name, a.version, a.author, a.author_email, a.description
  , a.long_description, a.long_description_content_type, a.url ]
    ++ a.scripts ++ a.packages ++ a.classifiers

/-- `startsWithChars needle hay` is true when `needle` is a prefix of
`hay`, character by character. -/
def startsWithChars : List Char → List Char → Bool
  | [], _ => true
  | _ :: _, [] => false
  | a :: as, b :: bs => a == b && startsWithChars as bs

/-- `containsChars needle hay` is true when `needle` occurs as a
contiguous run inside `hay`. -/
def containsChars (needle : List Char) : List Char → Bool
  | [] => startsWithChars needle []
  | b :: bs => startsWithChars needle (b :: bs) || containsChars needle bs

/-- Modelled from the spec's words for the license claim: a string
identifies the BSD 2-Clause license specifically when it mentions the
two-clause variant, in any of the usual spellings. -/
def mentionsTwoClause (s : String) : Bool :=
  containsChars "2-Clause".data s.data
    || containsChars "2-clause".data s.data
    || containsChars "2 Clause".data s.data
    || containsChars "2 clause".data s.data
    || containsChars "BSD-2".data s.data
    || containsChars "BSD 2".data s.data

/-- A sample environment whose `README.md` holds `"hello"` and where
`find_packages()` finds nothing, as in the repository itself. -/
def sampleEnv : Env :=
  ⟨fun f => if f = "README.md" then some "hello" else none, []⟩

/-- A second environment with the same `README.md` contents and the same
discovered packages as `sampleEnv`, but a different reader elsewhere. -/
def sampleEnvOther : Env :=
  ⟨fun f => if f = "README.md" then some "hello" else some "other", []⟩

/-- An environment with the same `README.md` contents as `sampleEnv` but
where `find_packages()` discovers a package directory. -/
def pkgEnv : Env :=
  ⟨fun f => if f = "README.md" then some "hello" else none, ["pkg"]⟩

/-- The environment of a working directory with no `README.md` at all. -/
def emptyEnv : Env :=
  ⟨fun _ => none, []⟩

end PxLdapGroupCleanup

namespace PxLdapGroupCleanup

/-- Claim C1: the `scripts` argument passed to `setuptools.setup` is a list
of length one whose sole element is the string `px-ldap-group-cleanup`,
whatever the README contents and the discovered packages are. -/
theorem scripts_single (ld : String) (ps : List String) :
    (setupCall ld ps).scripts = ["px-ldap-group-cleanup"] ∧
      (setupCall ld ps).scripts.length = 1 :=
  ⟨rfl, rfl⟩

/-- Claim C2: the `name` argument passed to `setuptools.setup` equals the
string `px-ldap-group-cleanup`. -/
theorem name_is_package_name (ld : String) (ps : List String) :
    (setupCall ld ps).name = "px-ldap-group-cleanup" :=
  rfl

/-- Claim C3: the `version` argument passed to `setuptools.setup` equals
the string `0.0.1`. -/
theorem version_is_0_0_1 (ld : String) (ps : List String) :
    (setupCall ld ps).version = "0.0.1" :=
  rfl

/-- Claim C4 counterexample: the claim that some metadata argument of the
`setup` call identifies the BSD 2-Clause license specifically is false.
At the concrete run with an empty README and no discovered packages, no
string among the arguments mentions the two-clause variant, and no
`license` keyword is passed at all. -/
theorem no_arg_mentions_two_clause :
    (∀ s ∈ stringKwargValues (setupCall "" []), mentionsTwoClause s = false)
      ∧ "license" ∉ setupKwargNames := by
  decide

/-- Claim C4 amended: the only license declaration among the arguments of
the `setup` call is the classifier `License :: OSI Approved :: BSD
License`, which declares a BSD-family license without singling out the
2-Clause variant; no classifier mentions the two-clause variant. -/
theorem license_classifier_is_generic_bsd (ld : String) (ps : List String) :
    "License :: OSI Approved :: BSD License" ∈ (setupCall ld ps).classifiers
      ∧ (setupCall ld ps).classifiers.all
          (fun s => mentionsTwoClause s = false) := by
  constructor
  · rw [show (setupCall ld ps).classifiers =
        [ "Programming Language :: Python :: 3"
        , "License :: OSI Approved :: BSD License"
        , "Operating System :: OS Independent" ] from rfl]
    decide
  · rw [show (setupCall ld ps).classifiers =
        [ "Programming Language :: Python :: 3"
        , "License :: OSI Approved :: BSD License"
        , "Operating System :: OS Independent" ] from rfl]
    decide

/-- Claim C5: the classifiers list passed to `setuptools.setup` contains
the string `Programming Language :: Python :: 3`. -/
theorem classifier_python3 (ld : String) (ps : List String) :
    "Programming Language :: Python :: 3" ∈ (setupCall ld ps).classifiers := by
  rw [show (setupCall ld ps).classifiers =
      [ "Programming Language :: Python :: 3"
      , "License :: OSI Approved :: BSD License"
      , "Operating System :: OS Independent" ] from rfl]
  decide

/-- Claim C6: the classifiers list passed to `setuptools.setup` contains
the string `Operating System :: OS Independent`. -/
theorem classifier_os_independent (ld : String) (ps : List String) :
    "Operating System :: OS Independent" ∈ (setupCall ld ps).classifiers := by
  rw [show (setupCall ld ps).classifiers =
      [ "Programming Language :: Python :: 3"
      , "License :: OSI Approved :: BSD License"
      , "Operating System :: OS Independent" ] from rfl]
  decide

/-- Claim C7: the keyword arguments passed to `setuptools.setup` are
exactly the eleven distribution-metadata keywords — name, version,
scripts, author, author_email, description, long_description,
long_description_content_type, url, packages, classifiers — and none of
the keywords that would document command-line options, environment
variables, configuration files, or protocols is among them. -/
theorem kwargs_are_metadata_only :
    setupKwargNames =
      [ "name", "version", "scripts", "author", "author_email"
      , "description", "long_description", "long_description_content_type"
      , "url", "packages", "classifiers" ]
      ∧ ∀ k ∈ ["options", "entry_points", "cmdclass", "license"],
          k ∉ setupKwargNames := by
  decide

/-- Claim C8: on every run of the module that reaches `setuptools.setup`,
the `long_description` argument equals the entire contents read from
`README.md`, and `long_description_content_type` equals `text/markdown`. -/
theorem long_description_from_readme (env : Env) (args : SetupArgs)
    (h : runSetup env = Except.ok args) :
    env.readFile "README.md" = some args.long_description
      ∧ args.long_description_content_type = "text/markdown" := by
  unfold runSetup at h
  cases hr : env.readFile "README.md" with
  | none => rw [hr] at h; cases h
  | some contents =>
      rw [hr] at h
      cases h
      exact ⟨rfl, rfl⟩

/-- Witness for claim C8 at the sample environment. -/
theorem long_description_from_readme_witness :
    sampleEnv.readFile "README.md" =
        some ((setupCall "hello" []).long_description)
      ∧ (setupCall "hello" []).long_description_content_type
          = "text/markdown" :=
  long_description_from_readme sampleEnv (setupCall "hello" []) (by rfl)

/-- Claim C9: when `README.md` does not exist the module raises a
file-not-found error and `setuptools.setup` is never called; conversely,
`setuptools.setup` is reached only when the `README.md` read succeeds. -/
theorem setup_requires_readme (env : Env) :
    (env.readFile "README.md" = none →
        runSetup env = Except.error readmeMissingError)
      ∧ (∀ args, runSetup env = Except.ok args →
          ∃ contents, env.readFile "README.md" = some contents) := by
  constructor
  · intro h
    unfold runSetup
    rw [h]
  · intro args h
    unfold runSetup at h
    cases hr : env.readFile "README.md" with
    | none => rw [hr] at h; cases h
    | some contents => exact ⟨contents, rfl⟩

/-- Witness for claim C9 at an environment with no files. -/
theorem setup_requires_readme_witness :
    runSetup emptyEnv = Except.error readmeMissingError :=
  (setup_requires_readme emptyEnv).1 (by decide)

/-- Claim C10 counterexample: two runs whose `README.md` contents agree
but whose working directories make `setuptools.find_packages()` return
different lists pass different argument tuples to `setuptools.setup`, so
sameness of the README alone does not make the runs identical. -/
theorem packages_break_readme_determinism :
    sampleEnv.readFile "README.md" = pkgEnv.readFile "README.md"
      ∧ runSetup sampleEnv ≠ runSetup pkgEnv := by
  refine ⟨rfl, fun h => ?_⟩
  simp [runSetup, sampleEnv, pkgEnv, setupCall] at h

/-- Claim C10 amended: the module is deterministic in its two inputs: any
two runs in which `README.md` has the same contents and
`setuptools.find_packages()` discovers the same packages pass the
identical argument tuple to `setuptools.setup`; every other argument is a
fixed literal. -/
theorem setup_deterministic (e1 e2 : Env)
    (hr : e1.readFile "README.md" = e2.readFile "README.md")
    (hp : e1.foundPackages = e2.foundPackages) :
    runSetup e1 = runSetup e2 := by
  unfold runSetup
  rw [hr, hp]

/-- Witness for the amended claim C10 at two concrete environments that
agree on `README.md` and on the discovered packages but differ on every
other file. -/
theorem setup_deterministic_witness :
    runSetup sampleEnv = runSetup sampleEnvOther :=
  setup_deterministic sampleEnv sampleEnvOther (by decide) (by decide)

end PxLdapGroupCleanup
